import Mathlib

/-!
Shallow embedding of the quiz-session subsystem of the Quiz19 client:
the countdown timer component (QuizTimer.jsx), the security wrapper
(SecurityWrapper.jsx), the socket hooks (useSocket.jsx) and the quiz page
controller (QuizPage.jsx), modelled as explicit state machines with
single-threaded, callback-at-a-time semantics.
-/

namespace Quiz

/-- Severity band of the remaining time, derived from the two boolean flags
isWarning and isCritical kept by QuizTimer. -/
inductive TimerBand where
  | Normal
  | Warning
  | Critical
deriving DecidableEq, Repr

/-- State of the QuizTimer component: the timeRemaining, isWarning and
isCritical useState hooks, whether the 1-second countdown interval is
currently installed, and how many times the onTimeUp callback has been
invoked so far. The component is modelled with the onTimeUp callback
supplied, as QuizPage supplies it. -/
structure TimerState where
  timeRemaining : Int
  isWarning : Bool
  isCritical : Bool
  intervalActive : Bool
  onTimeUpCalls : Nat
deriving DecidableEq, Repr

/-- Flag update performed inside the setInterval callback of QuizTimer
(QuizTimer.jsx lines 37-46): the pair (isWarning, isCritical) as a function
of the post-decrement value newTime. -/
def bandFlags (newTime : Int) : Bool × Bool :=
  if newTime ≤ 60 ∧ newTime > 30 then (true, false)
  else if newTime ≤ 30 then (true, true)
  else (false, false)

/-- Derived severity band, reading the two flags with the precedence of
getTimerColor (QuizTimer.jsx lines 82-86): critical wins over warning,
otherwise normal. -/
def band (t : Int) : TimerBand :=
  match bandFlags t with
  | (_, true) => .Critical
  | (true, false) => .Warning
  | (false, false) => .Normal

/-- Body of the countdown useEffect of QuizTimer (lines 24-58), re-run
whenever the timeRemaining state changes: at or below zero it fires the
onTimeUp callback and installs no interval; above zero it (re)installs the
interval. -/
def countdownEffect (s : TimerState) : TimerState :=
  if s.timeRemaining ≤ 0 then
    { s with onTimeUpCalls := s.onTimeUpCalls + 1, intervalActive := false }
  else
    { s with intervalActive := true }

/-- JavaScript expression initialTimeRemaining || 0: null and undefined are
modelled as none and fall back to 0; the number 0 is itself falsy and the
fallback again yields 0, so some v maps to v. -/
def jsOrZero : Option Int → Int
  | none => 0
  | some v => v

/-- Mounting QuizTimer: useState(initialTimeRemaining || 0) seeds the state
(line 12), then the effects run once; the prop-sync effect (lines 17-21)
writes the same prop value back, which does not change the state, and the
countdown effect runs on the seeded value. -/
def mount (initialTimeRemaining : Option Int) : TimerState :=
  countdownEffect
    { timeRemaining := jsOrZero initialTimeRemaining
      isWarning := false
      isCritical := false
      intervalActive := false
      onTimeUpCalls := 0 }

/-- One firing of the 1-second interval callback (lines 32-55): decrement
floored at 0, set the band flags from the post-decrement value, fire
onTimeUp when the new value is exactly 0, and store the new value; when the
stored value changed, the countdown effect re-runs (its cleanup clears the
old interval first). When no interval is installed nothing happens. -/
def tick (s : TimerState) : TimerState :=
  if s.intervalActive then
    let newTime := max 0 (s.timeRemaining - 1)
    let s1 : TimerState :=
      { timeRemaining := newTime
        isWarning := (bandFlags newTime).1
        isCritical := (bandFlags newTime).2
        intervalActive := s.intervalActive
        onTimeUpCalls := s.onTimeUpCalls + (if newTime = 0 then 1 else 0) }
    if newTime = s.timeRemaining then s1 else countdownEffect s1
  else s

/-- A server sync arriving through the initialTimeRemaining prop while the
component is mounted: the prop-sync effect (lines 17-21) stores the value
when it is non-null; if that changes the timeRemaining state, the countdown
effect re-runs. -/
def sync (s : TimerState) (v : Option Int) : TimerState :=
  match v with
  | none => s
  | some t =>
    if t = s.timeRemaining then s else countdownEffect { s with timeRemaining := t }

/-- Iterated interval firings. -/
def ticks : Nat → TimerState → TimerState
  | 0, s => s
  | n + 1, s => ticks n (tick s)

/-- String.padStart(2, the zero character) as applied to the decimal
rendering of a non-negative number field in formatTime. -/
def padTwo (s : String) : String :=
  if s.length < 2 then "0" ++ s else s

/-- formatTime of QuizTimer (lines 71-80); the three local constants hours,
minutes and secs of the source are inlined. -/
def formatTime (seconds : Nat) : String :=
  if seconds / 3600 > 0 then
    toString (seconds / 3600) ++ ":" ++ padTwo (toString (seconds % 3600 / 60))
      ++ ":" ++ padTwo (toString (seconds % 60))
  else
    toString (seconds % 3600 / 60) ++ ":" ++ padTwo (toString (seconds % 60))

/-- Zero-padded two-digit decimal field, stated from the words of the spec
for the minute and second fields. -/
def specField (n : Nat) : String :=
  if n < 10 then "0" ++ toString n else toString n

/-- Rendering H:MM:SS for at least one hour, stated from the words of the
spec: whole hours, then the zero-padded minute of the hour and second of
the minute. -/
def specHMS (s : Nat) : String :=
  toString (s / 3600) ++ ":" ++ specField (s / 60 % 60) ++ ":" ++ specField (s % 60)

/-- Rendering M:SS for under one hour, stated from the words of the spec:
whole minutes, then the zero-padded second of the minute. -/
def specMS (s : Nat) : String :=
  toString (s / 60) ++ ":" ++ specField (s % 60)

lemma band_critical_iff (t : Int) : band t = .Critical ↔ t ≤ 30 := by
  unfold band bandFlags
  split_ifs with h1 h2 <;> first | (simp_all; omega) | simp_all

lemma band_warning_iff (t : Int) : band t = .Warning ↔ 30 < t ∧ t ≤ 60 := by
  unfold band bandFlags
  split_ifs with h1 h2 <;> first | (simp_all; omega) | simp_all

lemma band_normal_iff (t : Int) : band t = .Normal ↔ 60 < t := by
  unfold band bandFlags
  split_ifs with h1 h2 <;> first | (simp_all; omega) | simp_all

/-- Claim C4: the band of the post-decrement remaining time is a pure
function of that value, exact at the boundaries: 61 is Normal, 60 and 31
are Warning, 30 and 0 are Critical; in general, for every non-negative
remaining time r, r > 60 is Normal, 31..60 inclusive is Warning and 0..30
inclusive is Critical. -/
theorem c4_band_boundaries :
    band 61 = .Normal ∧ band 60 = .Warning ∧ band 31 = .Warning ∧
    band 30 = .Critical ∧ band 0 = .Critical ∧
    ∀ r : Nat,
      (band (r : Int) = .Normal ↔ 60 < r) ∧
      (band (r : Int) = .Warning ↔ 31 ≤ r ∧ r ≤ 60) ∧
      (band (r : Int) = .Critical ↔ r ≤ 30) := by
  refine ⟨rfl, rfl, rfl, rfl, rfl, fun r => ⟨?_, ?_, ?_⟩⟩
  · rw [band_normal_iff]; omega
  · rw [band_warning_iff]; omega
  · rw [band_critical_iff]; omega

lemma padTwo_toString_eq_specField (n : Nat) (h : n < 100) :
    padTwo (toString n) = specField n := by
  interval_cases n <;> rfl

/-- Claim C8: for every non-negative number of seconds s, formatTime renders
s in the H:MM:SS shape when s is at least 3600 and in the M:SS shape
otherwise, with zero-padded minute and second fields; 125 seconds render as
2:05 and 300 seconds render as 5:00. -/
theorem c8_formatTime_shape :
    (∀ s : Nat, formatTime s = if 3600 ≤ s then specHMS s else specMS s) ∧
    formatTime 125 = "2:05" ∧ formatTime 300 = "5:00" := by
  refine ⟨?_, rfl, rfl⟩
  intro s
  unfold formatTime specHMS specMS
  rcases Nat.lt_or_ge s 3600 with h | h
  · have h0 : s / 3600 = 0 := Nat.div_eq_of_lt h
    have hm : s % 3600 / 60 = s / 60 := by omega
    rw [if_neg (by omega : ¬ s / 3600 > 0), if_neg (by omega : ¬ 3600 ≤ s), hm,
      padTwo_toString_eq_specField (s % 60) (by omega)]
  · have hm : s % 3600 / 60 = s / 60 % 60 := by omega
    rw [if_pos (by omega : s / 3600 > 0), if_pos h, hm,
      padTwo_toString_eq_specField (s / 60 % 60) (by omega),
      padTwo_toString_eq_specField (s % 60) (by omega)]

lemma ticks_succ (n : Nat) (s : TimerState) : ticks (n + 1) s = ticks n (tick s) := rfl

/-- One firing of the interval on a live countdown at a positive time:
decrement by one, recompute the band flags, count an onTimeUp call when 0
is reached, and feed the changed state through the countdown effect. -/
lemma tick_pos (t : Int) (ht : 0 < t) (w cr : Bool) (c : Nat) :
    tick ⟨t, w, cr, true, c⟩
      = countdownEffect ⟨t - 1, (bandFlags (t - 1)).1, (bandFlags (t - 1)).2, true,
          c + if t - 1 = 0 then 1 else 0⟩ := by
  have hmax : max 0 (t - 1) = t - 1 := max_eq_right (by omega)
  simp only [tick, hmax]
  rw [if_neg (by omega : ¬ (t - 1 = t))]
  simp

/-- Running a freshly seeded countdown all the way down: from a positive
remaining time n with the interval installed, after n interval firings the
remaining time is 0, the flags are critical, the interval is gone, and
onTimeUp has been invoked exactly twice more: once by the firing that
computed the value 0 and once by the countdown effect re-running on the
stored 0. -/
lemma ticks_run (n : Nat) (hn : 0 < n) (w cr : Bool) (c : Nat) :
    ticks n ⟨(n : Int), w, cr, true, c⟩ = ⟨0, true, true, false, c + 2⟩ := by
  induction n generalizing w cr with
  | zero => omega
  | succ m ih =>
    rw [ticks_succ, tick_pos _ (by omega) w cr c]
    have hsub : ((m + 1 : Nat) : Int) - 1 = (m : Int) := by omega
    rw [hsub]
    rcases Nat.eq_zero_or_pos m with hm | hm
    · subst hm
      norm_num [ticks, countdownEffect, bandFlags]
    · rw [if_neg (by omega : ¬ ((m : Int) = 0))]
      have hce : countdownEffect ⟨(m : Int), (bandFlags (m : Int)).1,
          (bandFlags (m : Int)).2, true, c + 0⟩
          = ⟨(m : Int), (bandFlags (m : Int)).1, (bandFlags (m : Int)).2, true, c⟩ := by
        simp only [countdownEffect]
        rw [if_neg (by omega : ¬ ((m : Int) ≤ 0))]
        norm_num
      rw [hce, ih hm]

/-- Claim C2 counterexample: a session seeded with 1 second and run to
expiry invokes the onTimeUp callback twice, not exactly once: the interval
firing that reaches 0 calls it, and the countdown effect re-running on the
stored 0 calls it again. -/
theorem c2_counterexample :
    (ticks 1 (mount (some 1))).onTimeUpCalls = 2 ∧
    ¬ (ticks 1 (mount (some 1))).onTimeUpCalls = 1 := by
  constructor <;> decide

/-- Claim C2 as amended: for every session seeded with a positive remaining
time n, running the countdown to expiry invokes the onTimeUp callback
exactly twice (once from the firing that computes 0 and once from the
effect re-run at 0); decrementing then stops, and further interval firings
change nothing at all, so no further invocation ever happens. -/
theorem c2_expiry_fires_twice (n : Nat) (hn : 0 < n) :
    (ticks n (mount (some (n : Int)))).onTimeUpCalls = 2 ∧
    tick (ticks n (mount (some (n : Int)))) = ticks n (mount (some (n : Int))) := by
  have hmount : mount (some (n : Int)) = ⟨(n : Int), false, false, true, 0⟩ := by
    simp only [mount, jsOrZero, countdownEffect]
    rw [if_neg (by omega)]
  rw [hmount, ticks_run n hn false false 0]
  refine ⟨rfl, ?_⟩
  simp only [tick]
  rw [if_neg (by simp)]

/-- Witness for c2_expiry_fires_twice at n = 2. -/
theorem c2_expiry_fires_twice_witness :
    (ticks 2 (mount (some (2 : Int)))).onTimeUpCalls = 2 ∧
    tick (ticks 2 (mount (some (2 : Int)))) = ticks 2 (mount (some (2 : Int))) :=
  c2_expiry_fires_twice 2 (by decide)

/-- Claim C10: mounting QuizTimer while the supplied initial remaining time
is unset initializes the internal remaining time to 0 via the falsy
fallback, and the countdown effect invokes the expiry callback onTimeUp
immediately, before any server time has been received. -/
theorem c10_mount_unset_fires_immediately :
    (mount none).timeRemaining = 0 ∧ (mount none).onTimeUpCalls = 1 := by
  constructor <;> rfl

/-- State of the blur-count effect of SecurityWrapper (SecurityWrapper.jsx
lines 140-168): the enabled prop and the blurCount local of the effect
closure. The count lives inside the closure of one effect run; while
disabled there is no closure and no listener, which we represent by count
0. -/
structure MonitorState where
  enabled : Bool
  blurCount : Nat
deriving DecidableEq, Repr

/-- Events the monitor reacts to: a window blur, and the enabled prop being
set by the security toggle of QuizPage. -/
inductive MonitorEvent where
  | blur
  | setEnabled (b : Bool)
deriving DecidableEq, Repr

/-- Step of the monitor. A blur while enabled runs handleBlur, which
increments the closure-local blurCount (and logs; at 3 it only logs an
error, nothing else happens). A blur while disabled hits no listener. When
the enabled prop changes, the effect keyed on [enabled] is torn down,
destroying the closure and its count, and if the new value is true a fresh
run starts with let blurCount = 0. -/
def monitorStep (s : MonitorState) : MonitorEvent → MonitorState
  | .blur => if s.enabled then { s with blurCount := s.blurCount + 1 } else s
  | .setEnabled b =>
    if b = s.enabled then s
    else { enabled := b, blurCount := 0 }

/-- Folding a sequence of monitor events. -/
def monitorRun (s : MonitorState) (es : List MonitorEvent) : MonitorState :=
  es.foldl monitorStep s

/-- Claim C1 counterexample: from a fresh enabled monitor, two blurs
accumulate count 2; disabling and re-enabling then one further blur yields
count 1, not 3: the count does not survive the toggle. -/
theorem c1_counterexample :
    (monitorRun ⟨true, 0⟩
      [MonitorEvent.blur, .blur, .setEnabled false, .setEnabled true, .blur]).blurCount = 1 ∧
    ¬ (monitorRun ⟨true, 0⟩
      [MonitorEvent.blur, .blur, .setEnabled false, .setEnabled true, .blur]).blurCount = 3 := by
  constructor <;> decide

/-- Claim C1 as amended: toggling the monitor off destroys the closure
holding the accumulated count, and re-enabling starts a fresh closure from
0, so whatever count was accumulated while enabled, after a disable and a
re-enable one further window-blur event yields count 1. -/
theorem c1_toggle_resets_count (s : MonitorState) (h : s.enabled = true) :
    (monitorStep (monitorStep s (.setEnabled false)) (.setEnabled true)).blurCount = 0 ∧
    (monitorStep (monitorStep (monitorStep s (.setEnabled false))
      (.setEnabled true)) .blur).blurCount = 1 := by
  simp [monitorStep, h]

/-- Witness for c1_toggle_resets_count at an enabled monitor with count 2. -/
theorem c1_toggle_resets_count_witness :
    (monitorStep (monitorStep (⟨true, 2⟩ : MonitorState) (.setEnabled false))
      (.setEnabled true)).blurCount = 0 ∧
    (monitorStep (monitorStep (monitorStep (⟨true, 2⟩ : MonitorState)
      (.setEnabled false)) (.setEnabled true)) .blur).blurCount = 1 :=
  c1_toggle_resets_count ⟨true, 2⟩ rfl

/-- The quizState of useQuizSocket (useSocket.jsx lines 89-94): remaining
time (null until some event carries one), current question index, total
question count, and the joined flag. -/
structure QuizState where
  timeRemaining : Option Int
  currentQuestionIndex : Int
  totalQuestions : Int
  isJoined : Bool
deriving DecidableEq, Repr

/-- Initial quizState of useQuizSocket. -/
def initialQuizState : QuizState :=
  ⟨none, 0, 0, false⟩

/-- Inbound channel events handled by useQuizSocket, plus localTick, which
stands for one decrement of the local countdown inside QuizTimer: the
countdown never writes back into the quizState of the hook. -/
inductive SocketEvent where
  | quizJoined (time_remaining current_question_index total_questions : Int)
  | timeSync (time_remaining : Int)
  | questionChanged (question_index : Int)
  | answerSubmitted
  | quizCompleted
  | localTick
deriving DecidableEq, Repr

/-- Event handlers of useQuizSocket (lines 106-141): handleQuizJoined
overwrites the whole state and sets isJoined; handleTimeSync overwrites
timeRemaining unconditionally; handleQuestionChanged overwrites
currentQuestionIndex unconditionally, with no bounds check; the
answer_submitted acknowledgment only logs; handleQuizCompleted clears
isJoined. -/
def socketStep (s : QuizState) : SocketEvent → QuizState
  | .quizJoined t q n => ⟨some t, q, n, true⟩
  | .timeSync t => { s with timeRemaining := some t }
  | .questionChanged q => { s with currentQuestionIndex := q }
  | .answerSubmitted => s
  | .quizCompleted => { s with isJoined := false }
  | .localTick => s

/-- Folding a sequence of inbound events. -/
def socketRun (s : QuizState) (es : List SocketEvent) : QuizState :=
  es.foldl socketStep s

/-- Recognizer for the events the C3 scenario interleaves: time_sync events
and local countdown decrements. -/
def syncOrTick : SocketEvent → Bool
  | .timeSync _ => true
  | .localTick => true
  | _ => false

/-- Value of the last time_sync event in a sequence, if any. -/
def lastSyncValue : List SocketEvent → Option Int
  | [] => none
  | e :: rest =>
    match lastSyncValue rest with
    | some t => some t
    | none =>
      match e with
      | .timeSync t => some t
      | _ => none

/-- Recognizer for the events that store a remaining time into quizState:
quiz_joined and time_sync. -/
def carriesTime : SocketEvent → Bool
  | .quizJoined _ _ _ => true
  | .timeSync _ => true
  | _ => false

lemma socketRun_nil (s : QuizState) : socketRun s [] = s := rfl

lemma socketRun_cons (s : QuizState) (e : SocketEvent) (es : List SocketEvent) :
    socketRun s (e :: es) = socketRun (socketStep s e) es := rfl

lemma socketRun_localTicks (es : List SocketEvent)
    (h : ∀ e ∈ es, e = SocketEvent.localTick) (s : QuizState) :
    socketRun s es = s := by
  induction es generalizing s with
  | nil => rfl
  | cons e rest ih =>
    have he : e = SocketEvent.localTick := h e (List.mem_cons_self e rest)
    rw [socketRun_cons, he]
    exact ih (fun x hx => h x (List.mem_cons_of_mem e hx)) s

lemma lastSyncValue_cons (e : SocketEvent) (rest : List SocketEvent) :
    lastSyncValue (e :: rest)
      = match lastSyncValue rest with
        | some t => some t
        | none =>
          match e with
          | SocketEvent.timeSync t => some t
          | _ => none := rfl

lemma lastSyncValue_none_all_tick (es : List SocketEvent)
    (hall : ∀ e ∈ es, syncOrTick e = true)
    (hnone : lastSyncValue es = none) :
    ∀ e ∈ es, e = SocketEvent.localTick := by
  induction es with
  | nil => intro e he; cases he
  | cons e rest ih =>
    rw [lastSyncValue_cons] at hnone
    cases hval : lastSyncValue rest with
    | some t =>
      rw [hval] at hnone
      simp at hnone
    | none =>
      rw [hval] at hnone
      intro x hx
      rcases List.mem_cons.mp hx with hx1 | hx2
      · subst hx1
        have he : syncOrTick x = true := hall x (List.mem_cons_self x rest)
        cases x with
        | timeSync t => simp at hnone
        | localTick => rfl
        | quizJoined a b c => simp [syncOrTick] at he
        | questionChanged a => simp [syncOrTick] at he
        | answerSubmitted => simp [syncOrTick] at he
        | quizCompleted => simp [syncOrTick] at he
      · exact ih (fun y hy => hall y (List.mem_cons_of_mem e hy)) hval x hx2

/-- Claim C3: over any sequence of time_sync events interleaved with local
countdown decrements, the last time_sync received strictly determines the
remaining time of the quizState; each time_sync overwrites it
unconditionally, and applying the same time_sync twice equals applying it
once. -/
theorem c3_last_sync_wins :
    (∀ (s : QuizState) (es : List SocketEvent) (t : Int),
      (∀ e ∈ es, syncOrTick e = true) →
      lastSyncValue es = some t →
      (socketRun s es).timeRemaining = some t) ∧
    (∀ (s : QuizState) (t : Int),
      (socketStep s (.timeSync t)).timeRemaining = some t) ∧
    (∀ (s : QuizState) (t : Int),
      socketStep (socketStep s (.timeSync t)) (.timeSync t)
        = socketStep s (.timeSync t)) := by
  refine ⟨?_, fun s t => rfl, fun s t => rfl⟩
  intro s es
  induction es generalizing s with
  | nil => intro t _ hlast; cases hlast
  | cons e rest ih =>
    intro t hall hlast
    rw [socketRun_cons]
    rw [lastSyncValue_cons] at hlast
    cases hval : lastSyncValue rest with
    | some u =>
      rw [hval] at hlast
      simp at hlast
      subst hlast
      exact ih (socketStep s e) u
        (fun x hx => hall x (List.mem_cons_of_mem e hx)) hval
    | none =>
      rw [hval] at hlast
      have hse : syncOrTick e = true := hall e (List.mem_cons_self e rest)
      cases e with
      | timeSync u =>
        simp at hlast
        subst hlast
        have hticks : ∀ x ∈ rest, x = SocketEvent.localTick :=
          lastSyncValue_none_all_tick rest
            (fun x hx => hall x (List.mem_cons_of_mem _ hx)) hval
        rw [socketRun_localTicks rest hticks]
        rfl
      | localTick => simp at hlast
      | quizJoined a b c => simp [syncOrTick] at hse
      | questionChanged a => simp [syncOrTick] at hse
      | answerSubmitted => simp [syncOrTick] at hse
      | quizCompleted => simp [syncOrTick] at hse

/-- Witness for c3_last_sync_wins on a concrete trace: two syncs with local
decrements in between, the last sync value 300 prevails. -/
theorem c3_last_sync_wins_witness :
    (socketRun initialQuizState
      [SocketEvent.timeSync 100, .localTick, .timeSync 300, .localTick]).timeRemaining
      = some 300 :=
  c3_last_sync_wins.1 initialQuizState
    [SocketEvent.timeSync 100, .localTick, .timeSync 300, .localTick] 300
    (by decide) (by decide)

/-- handleNextQuestion of QuizPage (QuizPage.jsx lines 107-113): advance the
local index only while strictly below questions.length - 1, and mirror the
move to the server (the emit is not state). -/
def handleNextQuestion (questionsLen idx : Nat) : Nat :=
  if idx < questionsLen - 1 then idx + 1 else idx

/-- handlePreviousQuestion of QuizPage (lines 115-121): step the local index
back only while strictly positive. -/
def handlePreviousQuestion (idx : Nat) : Nat :=
  if 0 < idx then idx - 1 else idx

/-- Claim C7 counterexample: the handlers do not enforce the invariant. On a
joined state with 2 questions, an inbound question_changed carrying index 5
is stored unconditionally, violating currentQuestionIndex < totalQuestions;
and a time_sync arriving before any quiz_joined already sets
timeRemaining while isJoined is still false. -/
theorem c7_counterexample :
    ((socketRun initialQuizState
        [SocketEvent.quizJoined 100 0 2, .questionChanged 5]).isJoined = true ∧
      ¬ ((socketRun initialQuizState
        [SocketEvent.quizJoined 100 0 2, .questionChanged 5]).currentQuestionIndex
          < (socketRun initialQuizState
        [SocketEvent.quizJoined 100 0 2, .questionChanged 5]).totalQuestions)) ∧
    ((socketStep initialQuizState (.timeSync 100)).timeRemaining = some 100 ∧
      (socketStep initialQuizState (.timeSync 100)).isJoined = false) := by
  refine ⟨⟨rfl, by decide⟩, rfl, rfl⟩

/-- Claim C7 as amended: local navigation preserves the index invariant (next
and previous keep 0 <= idx < questions.length when it held, and the
navigation buttons only target indexes below questions.length); an inbound
question_changed event overwrites the index unconditionally and preserves
the invariant exactly when the carried index is itself in range; and
timeRemaining stays unset until the first event carrying a time arrives,
which is a quiz_joined or a time_sync. -/
theorem c7_nav_invariant :
    (∀ len idx : Nat, idx < len → handleNextQuestion len idx < len) ∧
    (∀ len idx : Nat, idx < len → handlePreviousQuestion idx < len) ∧
    (∀ (s : QuizState) (q : Int),
      0 ≤ q → q < s.totalQuestions →
      0 ≤ (socketStep s (.questionChanged q)).currentQuestionIndex ∧
      (socketStep s (.questionChanged q)).currentQuestionIndex
        < (socketStep s (.questionChanged q)).totalQuestions) ∧
    (∀ es : List SocketEvent,
      (∀ e ∈ es, carriesTime e = false) →
      (socketRun initialQuizState es).timeRemaining = none) := by
  refine ⟨?_, ?_, ?_, ?_⟩
  · intro len idx h
    unfold handleNextQuestion
    split_ifs <;> omega
  · intro len idx h
    unfold handlePreviousQuestion
    split_ifs <;> omega
  · intro s q h0 hlt
    exact ⟨h0, hlt⟩
  · have hgen : ∀ (es : List SocketEvent) (s : QuizState),
        (∀ e ∈ es, carriesTime e = false) →
        (socketRun s es).timeRemaining = s.timeRemaining := by
      intro es
      induction es with
      | nil => intro s _; rfl
      | cons e rest ih =>
        intro s hall
        rw [socketRun_cons]
        have hs : (socketStep s e).timeRemaining = s.timeRemaining := by
          have he : carriesTime e = false := hall e (List.mem_cons_self e rest)
          cases e with
          | quizJoined a b c => simp [carriesTime] at he
          | timeSync a => simp [carriesTime] at he
          | questionChanged a => rfl
          | answerSubmitted => rfl
          | quizCompleted => rfl
          | localTick => rfl
        rw [ih (socketStep s e) (fun x hx => hall x (List.mem_cons_of_mem e hx)), hs]
    intro es hall
    rw [hgen es initialQuizState hall]
    rfl

/-- Witness for c7_nav_invariant: next from index 1 of 3 stays in range, and
a trace of index changes and local ticks leaves timeRemaining unset. -/
theorem c7_nav_invariant_witness :
    handleNextQuestion 3 1 < 3 ∧
    (socketRun initialQuizState
      [SocketEvent.questionChanged 1, .localTick, .answerSubmitted]).timeRemaining
      = none :=
  ⟨c7_nav_invariant.1 3 1 (by decide),
   c7_nav_invariant.2.2.2
     [SocketEvent.questionChanged 1, .localTick, .answerSubmitted] (by decide)⟩

/-- Security-related state of QuizPage: the warningCount and
showSecurityWarning hooks, the isSubmitting guard, and a count of how many
times finishQuiz has been forced. -/
structure ControllerState where
  warningCount : Nat
  showSecurityWarning : Bool
  isSubmitting : Bool
  finishCalls : Nat
deriving DecidableEq, Repr

/-- Initial security state of QuizPage (lines 33, 38-39). -/
def initialControllerState : ControllerState :=
  ⟨0, false, false, 0⟩

/-- handleFinishQuiz of QuizPage (lines 123-136): a no-op while isSubmitting
is set; otherwise it emits finish_quiz and navigates away, and the finally
clause resets isSubmitting, so the flag is false again after the call. We
count the forced finishes. -/
def handleFinishQuiz (s : ControllerState) : ControllerState :=
  if s.isSubmitting then s
  else { s with finishCalls := s.finishCalls + 1 }

/-- handleTimeUp of QuizPage (lines 138-140): the expiry callback of the
timer forces a finish. -/
def handleTimeUp (s : ControllerState) : ControllerState :=
  handleFinishQuiz s

/-- handleSecurityViolation of QuizPage (lines 142-150): increment
warningCount and show the warning; the guard compares warningCount as read
from the render closure, i.e. the pre-increment value, against 2, forcing a
finish on the third and on every later signal. -/
def handleSecurityViolation (s : ControllerState) : ControllerState :=
  let s1 : ControllerState :=
    { s with warningCount := s.warningCount + 1, showSecurityWarning := true }
  if s.warningCount ≥ 2 then handleFinishQuiz s1 else s1

/-- Iterated securityViolation signals, delivered one per render. -/
def violations : Nat → ControllerState → ControllerState
  | 0, s => s
  | n + 1, s => violations n (handleSecurityViolation s)

lemma violations_succ (n : Nat) (s : ControllerState) :
    violations (n + 1) s = violations n (handleSecurityViolation s) := rfl

lemma violations_high (n w c : Nat) (b : Bool) (h2 : 2 ≤ w) :
    (violations n ⟨w, b, false, c⟩).warningCount = w + n ∧
    (violations n ⟨w, b, false, c⟩).finishCalls = c + n := by
  induction n generalizing w b c with
  | zero => exact ⟨rfl, rfl⟩
  | succ m ih =>
    rw [violations_succ]
    have hstep : handleSecurityViolation ⟨w, b, false, c⟩
        = ⟨w + 1, true, false, c + 1⟩ := by
      unfold handleSecurityViolation handleFinishQuiz
      rw [if_pos h2, if_neg (Bool.false_ne_true)]
    rw [hstep]
    have hh := ih (w + 1) (c + 1) true (by omega)
    exact ⟨by rw [hh.1]; omega, by rw [hh.2]; omega⟩

/-- Claim C5: the controller keeps its own violation counter, incremented by
one per securityViolation signal, and the forced finishQuiz happens exactly
when that counter reaches 3: after n signals the counter is n and the
number of forced finishes is n - 2 (so zero before the third signal and the
first one at the third); independently, the expiry callback of the timer
forces one finishQuiz whenever it fires outside an in-flight submit. -/
theorem c5_violation_threshold :
    (∀ n : Nat,
      (violations n initialControllerState).warningCount = n ∧
      (violations n initialControllerState).finishCalls = n - 2) ∧
    (∀ s : ControllerState, s.isSubmitting = false →
      (handleTimeUp s).finishCalls = s.finishCalls + 1) := by
  constructor
  · intro n
    match n with
    | 0 => exact ⟨rfl, rfl⟩
    | 1 => exact ⟨rfl, rfl⟩
    | 2 => exact ⟨rfl, rfl⟩
    | (m + 3) =>
      have h3 : violations (m + 3) initialControllerState
          = violations m (⟨3, true, false, 1⟩ : ControllerState) := rfl
      have hh := violations_high m 3 1 true (by omega)
      rw [h3]
      exact ⟨by rw [hh.1]; omega, by rw [hh.2]; omega⟩
  · intro s hsub
    unfold handleTimeUp handleFinishQuiz
    rw [if_neg (by rw [hsub]; exact Bool.false_ne_true)]

/-- Witness for c5_violation_threshold: three signals from the initial state
give counter 3 and one forced finish, and one expiry on the initial state
forces one finish. -/
theorem c5_violation_threshold_witness :
    ((violations 3 initialControllerState).warningCount = 3 ∧
      (violations 3 initialControllerState).finishCalls = 3 - 2) ∧
    (handleTimeUp initialControllerState).finishCalls
      = initialControllerState.finishCalls + 1 :=
  ⟨c5_violation_threshold.1 3, c5_violation_threshold.2 initialControllerState rfl⟩

/-- A quiz question as far as answer recording is concerned: its stable
identifier. -/
structure Question where
  id : String
deriving DecidableEq, Repr

/-- The answers object of QuizPage, a JavaScript object keyed by question
id; the spread update writes one key and keeps every other key. -/
def answersInsert (answers : String → Option String) (qid sel : String) :
    String → Option String :=
  fun k => if k = qid then some sel else answers k

/-- handleAnswerSelect of QuizPage (lines 91-105): read the id of the
question at currentQuestionIndex; a missing question or a falsy (empty) id
returns without change; otherwise record the selection locally under that
id (the submit_answer emission carries no local state). -/
def handleAnswerSelect (questions : List Question) (idx : Nat) (sel : String)
    (answers : String → Option String) : String → Option String :=
  match questions.get? idx with
  | none => answers
  | some q => if q.id = "" then answers else answersInsert answers q.id sel

/-- A sequence of recorded submissions, each a pair of question id and
selected option, applied in order. -/
def applySubmits (answers : String → Option String) :
    List (String × String) → (String → Option String)
  | [] => answers
  | (qid, sel) :: rest => applySubmits (answersInsert answers qid sel) rest

/-- The option of the last submission for a given question id in a
sequence, if any. -/
def lastFor (q : String) : List (String × String) → Option String
  | [] => none
  | (qid, sel) :: rest =>
    match lastFor q rest with
    | some v => some v
    | none => if qid = q then some sel else none

lemma lastFor_cons (q qid sel : String) (rest : List (String × String)) :
    lastFor q ((qid, sel) :: rest)
      = match lastFor q rest with
        | some v => some v
        | none => if qid = q then some sel else none := rfl

/-- Claim C6: the recorded answer for a question id is the option of the
last submission for that id, and submissions never touch other keys: over
any sequence of submissions the lookup at q is the last value written for q
(or the prior entry when none was); in particular through
handleAnswerSelect, submitting one option and then another for the same
question leaves the second, and every other question id keeps its entry. -/
theorem c6_last_write_wins :
    (∀ (answers : String → Option String) (cs : List (String × String)) (q : String),
      applySubmits answers cs q
        = match lastFor q cs with
          | some v => some v
          | none => answers q) ∧
    (∀ (questions : List Question) (idx : Nat) (q : Question)
        (answers : String → Option String) (selA selB : String),
      questions.get? idx = some q → ¬ q.id = "" →
      (handleAnswerSelect questions idx selA
        (handleAnswerSelect questions idx selB answers)) q.id = some selA ∧
      ∀ k, ¬ k = q.id →
        (handleAnswerSelect questions idx selA
          (handleAnswerSelect questions idx selB answers)) k = answers k) := by
  constructor
  · intro answers cs
    induction cs generalizing answers with
    | nil => intro q; rfl
    | cons p rest ih =>
      intro q
      rcases p with ⟨qid, sel⟩
      rw [lastFor_cons]
      show applySubmits (answersInsert answers qid sel) rest q = _
      rw [ih (answersInsert answers qid sel) q]
      cases hval : lastFor q rest with
      | some v => rfl
      | none =>
        unfold answersInsert
        by_cases hq : q = qid
        · rw [if_pos hq, if_pos (by rw [hq])]
        · rw [if_neg hq, if_neg (fun hc => hq hc.symm)]
  · intro questions idx q answers selA selB hget hne
    unfold handleAnswerSelect
    rw [hget]
    simp only [if_neg hne]
    constructor
    · unfold answersInsert
      rw [if_pos rfl]
    · intro k hk
      unfold answersInsert
      rw [if_neg hk, if_neg hk]

/-- Witness for c6_last_write_wins: one question with id q1, submit option b
then option a; the record at q1 is a and an unrelated key keeps its prior
(absent) entry. -/
theorem c6_last_write_wins_witness :
    (handleAnswerSelect [⟨"q1"⟩] 0 ("a")
      (handleAnswerSelect [⟨"q1"⟩] 0 ("b") (fun _ => none))) (⟨"q1"⟩ : Question).id
      = some ("a") ∧
    (handleAnswerSelect [⟨"q1"⟩] 0 ("a")
      (handleAnswerSelect [⟨"q1"⟩] 0 ("b") (fun _ => none))) ("q2")
      = (fun _ => none : String → Option String) ("q2") :=
  ⟨(c6_last_write_wins.2 [⟨"q1"⟩] 0 ⟨"q1"⟩ (fun _ => none) ("a") ("b")
      rfl (by decide)).1,
   (c6_last_write_wins.2 [⟨"q1"⟩] 0 ⟨"q1"⟩ (fun _ => none) ("a") ("b")
      rfl (by decide)).2 ("q2") (by decide)⟩

/-- Every resource acquired by the effects of the session page tree:
intervals, document and window listeners and the injected style node of
SecurityWrapper, the socket connection of useSocket with its four
status handlers, and the seven quiz channel handlers of useQuizSocket. -/
inductive Resource where
  | countdownInterval
  | timerResyncInterval
  | socketResyncInterval
  | contextmenuListener
  | selectstartListener
  | dragstartListener
  | keydownListener
  | keyupListener
  | blurListener
  | focusListener
  | styleNode
  | connectHandler
  | disconnectHandler
  | connectErrorHandler
  | errorHandler
  | quizJoinedHandler
  | timeSyncHandler
  | questionChangedHandler
  | answerSubmittedHandler
  | quizCompletedHandler
  | userJoinedHandler
  | userLeftHandler
  | socketConnection
deriving DecidableEq, Repr

/-- The interval resources. -/
def isInterval : Resource → Bool
  | .countdownInterval => true
  | .timerResyncInterval => true
  | .socketResyncInterval => true
  | _ => false

/-- The document and window listeners attached by SecurityWrapper. -/
def isDomListener : Resource → Bool
  | .contextmenuListener => true
  | .selectstartListener => true
  | .dragstartListener => true
  | .keydownListener => true
  | .keyupListener => true
  | .blurListener => true
  | .focusListener => true
  | _ => false

/-- The four connection-status handlers registered on the socket by
useSocket. -/
def isStatusHandler : Resource → Bool
  | .connectHandler => true
  | .disconnectHandler => true
  | .connectErrorHandler => true
  | .errorHandler => true
  | _ => false

/-- The mount configuration the guards of each effect read: whether security
is enabled, whether the countdown effect ran with a positive remaining time,
whether QuizTimer received an onTimeSync prop, whether an auth token exists,
whether the socket is connected, whether a session token is present, and
whether the quiz is joined. Idle, Joining and Joined sessions are all
instances of these flags. -/
structure MountConfig where
  securityEnabled : Bool
  countdownRunning : Bool
  hasOnTimeSync : Bool
  hasToken : Bool
  isConnected : Bool
  hasSessionToken : Bool
  isJoined : Bool
deriving DecidableEq, Repr

/-- First effect of SecurityWrapper (lines 4-137): when enabled, attach five
document listeners and append a style node. -/
def securityEffectAcquired (enabled : Bool) : List Resource :=
  if enabled then
    [.contextmenuListener, .selectstartListener, .dragstartListener,
     .keydownListener, .keyupListener, .styleNode]
  else []

/-- Cleanup of the first SecurityWrapper effect (lines 129-136): remove the
same five listeners and the style node. -/
def securityEffectReleased (enabled : Bool) : List Resource :=
  if enabled then
    [.contextmenuListener, .selectstartListener, .dragstartListener,
     .keydownListener, .keyupListener, .styleNode]
  else []

/-- Second effect of SecurityWrapper (lines 140-168): when enabled, attach
the window blur and focus listeners. -/
def blurEffectAcquired (enabled : Bool) : List Resource :=
  if enabled then [.blurListener, .focusListener] else []

/-- Cleanup of the second SecurityWrapper effect (lines 164-167). -/
def blurEffectReleased (enabled : Bool) : List Resource :=
  if enabled then [.blurListener, .focusListener] else []

/-- Countdown effect of QuizTimer (lines 24-58): installs the 1-second
interval only when the remaining time is positive (at or below zero it
returns early with no cleanup). -/
def countdownEffectAcquired (running : Bool) : List Resource :=
  if running then [.countdownInterval] else []

/-- Cleanup of the countdown effect (line 57). -/
def countdownEffectReleased (running : Bool) : List Resource :=
  if running then [.countdownInterval] else []

/-- Resync effect of QuizTimer (lines 61-69): installs the 2-minute sync
interval when an onTimeSync callback was supplied. -/
def timerResyncAcquired (hasCallback : Bool) : List Resource :=
  if hasCallback then [.timerResyncInterval] else []

/-- Cleanup of the QuizTimer resync effect (line 68). -/
def timerResyncReleased (hasCallback : Bool) : List Resource :=
  if hasCallback then [.timerResyncInterval] else []

/-- Connection effect of useSocket (useSocket.jsx lines 13-57): with a token
it opens the socket and registers the four status handlers on it. -/
def socketEffectAcquired (hasToken : Bool) : List Resource :=
  if hasToken then
    [.socketConnection, .connectHandler, .disconnectHandler,
     .connectErrorHandler, .errorHandler]
  else []

/-- Cleanup of the useSocket effect (lines 52-56): it only calls
socket.disconnect(); none of the four status handlers is removed. -/
def socketEffectReleased (hasToken : Bool) : List Resource :=
  if hasToken then [.socketConnection] else []

/-- Quiz event effect of useQuizSocket (lines 97-176): when the socket
exists, is connected and a session token is present, register the seven
quiz handlers. -/
def quizSocketEffectAcquired (active : Bool) : List Resource :=
  if active then
    [.quizJoinedHandler, .timeSyncHandler, .questionChangedHandler,
     .answerSubmittedHandler, .quizCompletedHandler, .userJoinedHandler,
     .userLeftHandler]
  else []

/-- Cleanup of the quiz event effect (lines 163-175): off for each of the
seven handlers (the final leave_quiz emit holds no resource). -/
def quizSocketEffectReleased (active : Bool) : List Resource :=
  if active then
    [.quizJoinedHandler, .timeSyncHandler, .questionChangedHandler,
     .answerSubmittedHandler, .quizCompletedHandler, .userJoinedHandler,
     .userLeftHandler]
  else []

/-- Auto-resync effect of useQuizSocket (lines 179-189): the 30-second
interval runs only once connected and joined. -/
def socketResyncAcquired (active : Bool) : List Resource :=
  if active then [.socketResyncInterval] else []

/-- Cleanup of the auto-resync effect (line 188). -/
def socketResyncReleased (active : Bool) : List Resource :=
  if active then [.socketResyncInterval] else []

/-- Everything acquired by a mounted session page under a configuration. -/
def mountAcquired (c : MountConfig) : List Resource :=
  securityEffectAcquired c.securityEnabled ++ blurEffectAcquired c.securityEnabled ++
  countdownEffectAcquired c.countdownRunning ++ timerResyncAcquired c.hasOnTimeSync ++
  socketEffectAcquired c.hasToken ++
  quizSocketEffectAcquired (c.hasToken && c.isConnected && c.hasSessionToken) ++
  socketResyncAcquired (c.hasToken && c.isConnected && c.isJoined)

/-- Everything the cleanups release when the page unmounts under the same
configuration. -/
def unmountReleased (c : MountConfig) : List Resource :=
  securityEffectReleased c.securityEnabled ++ blurEffectReleased c.securityEnabled ++
  countdownEffectReleased c.countdownRunning ++ timerResyncReleased c.hasOnTimeSync ++
  socketEffectReleased c.hasToken ++
  quizSocketEffectReleased (c.hasToken && c.isConnected && c.hasSessionToken) ++
  socketResyncReleased (c.hasToken && c.isConnected && c.isJoined)

/-- Resources still held after a mount followed by an unmount: the acquired
multiset minus the released one. -/
def leaked (c : MountConfig) : List Resource :=
  (mountAcquired c).diff (unmountReleased c)

/-- A configuration with everything live: security on, countdown running,
both resync cadences installed, socket connected and joined. -/
def fullConfig : MountConfig :=
  ⟨true, true, true, true, true, true, true⟩

/-- The same configuration without an auth token: no socket was ever
opened. -/
def noTokenConfig : MountConfig :=
  ⟨true, true, true, false, true, true, true⟩

/-- Claim C9 counterexample: unmounting a fully live session releases every
interval and DOM listener, but not every attach has a matching detach: the
four connection-status handlers registered by useSocket are never removed
by its cleanup, which only disconnects the socket, so they are exactly what
remains. -/
theorem c9_counterexample :
    leaked fullConfig
      = [.connectHandler, .disconnectHandler, .connectErrorHandler, .errorHandler] ∧
    ¬ leaked fullConfig = [] := by
  constructor <;> decide

/-- Claim C9 as amended: unmounting at any state leaves zero active
intervals and zero document or window listeners, and releases the socket
connection itself; everything that can remain is among the four
connection-status handlers of useSocket, which have no individual detach
and stay registered on the (disconnected) socket object; with no token no
resource remains at all. -/
theorem c9_cleanup_no_leaks (c : MountConfig) :
    (∀ r ∈ leaked c, isInterval r = false) ∧
    (∀ r ∈ leaked c, isDomListener r = false) ∧
    (∀ r ∈ leaked c, isStatusHandler r = true) ∧
    Resource.socketConnection ∉ leaked c ∧
    (c.hasToken = false → leaked c = []) := by
  rcases c with ⟨a, b, d, e, f, g, h⟩
  cases a <;> cases b <;> cases d <;> cases e <;> cases f <;> cases g <;> cases h <;>
    exact ⟨by decide, by decide, by decide, by decide, by decide⟩

/-- Witness for c9_cleanup_no_leaks: with no token nothing remains, and in
every case the socket connection of the full configuration is released. -/
theorem c9_cleanup_no_leaks_witness :
    leaked noTokenConfig = [] ∧ Resource.socketConnection ∉ leaked fullConfig :=
  ⟨(c9_cleanup_no_leaks noTokenConfig).2.2.2.2 rfl,
   (c9_cleanup_no_leaks fullConfig).2.2.2.1⟩

end Quiz
